import Mathlib

/-!
Shallow embedding of the run-time diagnostics control plane declared in
`src/lib/ts/Diags.h` (the `TS_USE_DIAGS` branch): severity levels, tag
domains, per-level output routing, the `Diags` controller with its tag
gates, and the emission entry points.  Function bodies that live only in
`Diags.cc` (which is not in the tree) are modelled from the specification
and say so in their doc comments.
-/

set_option autoImplicit false

/-- `DiagsTagType` (Diags.h lines 51-55): the two tag domains,
`DiagsTagType_Debug = 0` and `DiagsTagType_Action = 1`, used as array
indices into all per-domain state. -/
inductive DiagsTagType where
  | Debug
  | Action
deriving DecidableEq, Repr

/-- `struct DiagsModeOutput` (Diags.h lines 57-63): the four independent
sink flags saying where one severity level prints. -/
structure DiagsModeOutput where
  to_stdout : Bool
  to_stderr : Bool
  to_syslog : Bool
  to_diagslog : Bool
deriving DecidableEq, Repr

/-- `enum DiagsLevel` (Diags.h lines 65-77): the nine severity levels in
their fixed order, plus the `DL_Undefined` sentinel that must be last and
is used only for the array size. -/
inductive DiagsLevel where
  | DL_Diag
  | DL_Debug
  | DL_Status
  | DL_Note
  | DL_Warning
  | DL_Error
  | DL_Fatal
  | DL_Alert
  | DL_Emergency
  | DL_Undefined
deriving DecidableEq, Repr

/-- The integer value C gives each `DiagsLevel` enumerator (`DL_Diag = 0`,
then consecutively; the enum says "do not renumber --- used as array
index"). -/
def DiagsLevel.toNat : DiagsLevel → Nat
  | .DL_Diag => 0
  | .DL_Debug => 1
  | .DL_Status => 2
  | .DL_Note => 3
  | .DL_Warning => 4
  | .DL_Error => 5
  | .DL_Fatal => 6
  | .DL_Alert => 7
  | .DL_Emergency => 8
  | .DL_Undefined => 9

/-- `#define DiagsLevel_Count DL_Undefined` (Diags.h line 79). -/
def DiagsLevel_Count : Nat := DiagsLevel.toNat .DL_Undefined

/-- `#define DiagsLevel_IsTerminal(_l) (((_l) >= DL_Fatal) && ((_l) < DL_Undefined))`
(Diags.h line 81), with the enum compared at its C integer values. -/
def DiagsLevel_IsTerminal (l : DiagsLevel) : Bool :=
  (DiagsLevel.toNat .DL_Fatal ≤ l.toNat) && (l.toNat < DiagsLevel.toNat .DL_Undefined)

/-- The compiled tag matcher (`DFA` from `Regex.h`): an external black box
that answers `matches(tagName) -> bool`, so it is embedded as a plain
predicate on tag strings. -/
def Matcher : Type := String → Bool

/-- `struct DiagsConfigState` (Diags.h lines 88-93): the pair of
per-domain enable flags (in C a `static bool enabled[2]`, kept static to
eliminate loads from the critical path) together with the per-level
routing table `DiagsModeOutput outputs[DiagsLevel_Count]`. -/
structure DiagsConfigState where
  enabled : DiagsTagType → Bool
  outputs : DiagsLevel → DiagsModeOutput

/-- `class SrcLoc` (Diags.h lines 106-133): a source code location with a
validity flag, file name, function name and line number.  The `const
char *` members may be `NULL`, hence `Option String`. -/
structure SrcLoc where
  valid : Bool
  file : Option String
  func : Option String
  line : Int

/-- `SrcLoc::set` (Diags.h lines 114-120): fills the three fields and
marks the location valid. -/
def SrcLoc.set (_file _func : String) (_line : Int) : SrcLoc :=
  { valid := true, file := some _file, func := some _func, line := _line }

/-- The three-argument constructor `SrcLoc(_file, _func, _line)`
(Diags.h lines 122-125), which just calls `set`. -/
def SrcLoc.mk3 (_file _func : String) (_line : Int) : SrcLoc :=
  SrcLoc.set _file _func _line

/-- The no-argument constructor `SrcLoc()` (Diags.h lines 127-128):
`valid(false), file(NULL), func(NULL), line(0)`. -/
def SrcLoc.noArgs : SrcLoc :=
  { valid := false, file := none, func := none, line := 0 }

/-- The four output sinks a record can be routed to. -/
inductive Sink where
  | to_stdout
  | to_stderr
  | to_syslog
  | to_diagslog
deriving DecidableEq, Repr

/-- Observable emission events: a write attempt of a rendered record to a
sink (with its success flag), an invocation of the cleanup hook, and the
signal that the process must terminate. -/
inductive Event where
  | write (s : Sink) (ok : Bool) (record : String)
  | cleanup
  | terminate
deriving DecidableEq, Repr

/-- `class Diags` (Diags.h lines 151-244): the controller state.
`diags_log_fp` records whether the dedicated diagnostics `FILE *` is
open; `cleanup_func` records whether a `DiagsCleanupFunc` hook is
installed (its only observable is the `Event.cleanup` it produces);
`activated_tags` is the `DFA *activated_tags[2]` pair, `none` standing
for a null pointer. -/
structure Diags where
  diags_log_fp : Bool
  magic : Nat
  config : DiagsConfigState
  show_location : Bool
  cleanup_func : Bool
  prefix_str : String
  base_debug_tags : Option String
  base_action_tags : Option String
  activated_tags : DiagsTagType → Option Matcher

/-- Modelled from the spec: `Diags::tag_activated` is declared at
Diags.h line 179 but implemented in `Diags.cc`, which is not in the
tree.  Per the spec, it is the lock-protected matcher lookup for the
domain: the domain's compiled matcher is consulted, and with no matcher
installed nothing matches. -/
def Diags.tag_activated (d : Diags) (tag : String) (mode : DiagsTagType) : Bool :=
  match d.activated_tags mode with
  | some m => m tag
  | none => false

/-- `Diags::on(DiagsTagType)` (Diags.h lines 168-170): the cheap global
enable flag for a domain. -/
def Diags.on (d : Diags) (mode : DiagsTagType) : Bool :=
  d.config.enabled mode

/-- `Diags::on(const char *, DiagsTagType)` (Diags.h lines 171-173):
`config.enabled[mode] && tag_activated(tag, mode)`. -/
def Diags.on_tag (d : Diags) (tag : String) (mode : DiagsTagType) : Bool :=
  d.config.enabled mode && d.tag_activated tag mode

/-- Modelled from the spec: `Diags::level_name` (declared Diags.h line
185, body in the absent `Diags.cc`): the printable name of a severity
level, used in the rendered record. -/
def level_name : DiagsLevel → String
  | .DL_Diag => "DIAG"
  | .DL_Debug => "DEBUG"
  | .DL_Status => "STATUS"
  | .DL_Note => "NOTE"
  | .DL_Warning => "WARNING"
  | .DL_Error => "ERROR"
  | .DL_Fatal => "FATAL"
  | .DL_Alert => "ALERT"
  | .DL_Emergency => "EMERGENCY"
  | .DL_Undefined => "UNDEFINED"

/-- Modelled from the spec: `SrcLoc::str` (declared Diags.h line 132,
body in the absent `Diags.cc`): formats the location into a buffer.  An
invalid location yields no text at all (`none`), never placeholders. -/
def SrcLoc.str (l : SrcLoc) : Option String :=
  if l.valid then
    some ((l.file.getD "") ++ ":" ++ toString l.line ++ " (" ++ (l.func.getD "") ++ ")")
  else
    none

/-- Modelled from the spec: the record `print_va` renders (the body is in
the absent `Diags.cc`): the severity name, the display prefix string, the
source location only when the show-location flag is set and the location
is valid, the tag when one is present, then the message text. -/
def renderRecord (d : Diags) (tag : Option String) (dl : DiagsLevel) (loc : SrcLoc)
    (msg : String) : String :=
  String.join
    ([level_name dl, ": ", d.prefix_str]
      ++ (match (if d.show_location then loc.str else none) with
          | some s => [" ", s]
          | none => [])
      ++ (match tag with
          | some t => [" (", t, ")"]
          | none => [])
      ++ [" ", msg])

/-- The sinks the routing table sends a level to, in the fixed order of
the `DiagsModeOutput` flags; the dedicated diagnostics file is skipped
when its handle is not open (per the spec an unavailable sink is silently
skipped for that sink only). -/
def Diags.sinksFor (d : Diags) (dl : DiagsLevel) : List Sink :=
  let o := d.config.outputs dl
  (if o.to_stdout then [Sink.to_stdout] else [])
    ++ (if o.to_stderr then [Sink.to_stderr] else [])
    ++ (if o.to_syslog then [Sink.to_syslog] else [])
    ++ (if o.to_diagslog && d.diags_log_fp then [Sink.to_diagslog] else [])

/-- The write attempts of one emission: one per routed sink, each carrying
its success flag from `ok`. -/
def Diags.sinkWrites (d : Diags) (dl : DiagsLevel) (r : String) (ok : Sink → Bool) :
    List Event :=
  (d.sinksFor dl).map (fun s => Event.write s (ok s) r)

/-- Modelled from the spec: `Diags::print_va` (declared Diags.h lines
187-188, body in the absent `Diags.cc`): the unconditional emission
entry point.  It looks up the level's routing entry, writes the rendered
record to each configured and available sink, and then, when the level
is terminal, invokes the cleanup hook when one is installed and signals
process termination — regardless of the success of the writes (`ok`). -/
def Diags.print_va (d : Diags) (tag : Option String) (dl : DiagsLevel) (loc : SrcLoc)
    (msg : String) (ok : Sink → Bool) : List Event :=
  d.sinkWrites dl (renderRecord d tag dl loc msg) ok
    ++ (if DiagsLevel_IsTerminal dl then
          (if d.cleanup_func then [Event.cleanup] else []) ++ [Event.terminate]
        else [])

/-- `Diags::log_va` (Diags.h lines 208-213): `if (!on(tag)) return;
print_va(tag, dl, loc, format_string, ap);` — note `on(tag)` uses the
defaulted mode `DiagsTagType_Debug`. -/
def Diags.log_va (d : Diags) (tag : String) (dl : DiagsLevel) (loc : SrcLoc)
    (msg : String) (ok : Sink → Bool) : List Event :=
  if !(d.on_tag tag DiagsTagType.Debug) then [] else d.print_va (some tag) dl loc msg ok

/-- Modelled from the spec: `Diags::log` (declared Diags.h lines 215-217,
body in the absent `Diags.cc`): the varargs convenience wrapper that
builds the `va_list` and forwards to `log_va`, exactly as `Diags::print`
(whose body is in the header) forwards to `print_va`. -/
def Diags.log (d : Diags) (tag : String) (dl : DiagsLevel) (loc : SrcLoc)
    (msg : String) (ok : Sink → Bool) : List Event :=
  d.log_va tag dl loc msg ok

/-- Modelled from the spec: `Diags::error` (declared Diags.h lines
219-221, body in the absent `Diags.cc`): the unconditional-but-routed
family used by the `Status` … `Emergency` macros.  It applies no tag
filtering; whether and where the record appears is decided only by the
error output path, i.e. the level's routing entry inside `print_va`. -/
def Diags.error (d : Diags) (dl : DiagsLevel) (loc : SrcLoc) (msg : String)
    (ok : Sink → Bool) : List Event :=
  d.print_va none dl loc msg ok

/-- The return type of `Diags::activate_taglist` as declared at Diags.h
line 225: `void`, embedded as `Unit`. -/
def ActivateTaglistRet : Type := Unit

/-- Modelled from the spec: `Diags::activate_taglist` (declared Diags.h
line 225, body in the absent `Diags.cc`).  `compile` is the external
pattern matcher's `compile(patternList) -> Matcher`, returning `none` on
a malformed specification.  A null (`none`) or malformed tag list leaves
the controller unchanged (reconfiguration is all-or-nothing per call);
otherwise the domain's matcher is replaced and its enable flag is set to
true when the list is non-empty.  The declaration returns `void`, so the
call yields only the new controller state. -/
def Diags.activate_taglist (compile : String → Option Matcher) (d : Diags)
    (taglist : Option String) (mode : DiagsTagType) : Diags :=
  match taglist with
  | none => d
  | some s =>
    match compile s with
    | none => d
    | some m =>
      { diags_log_fp := d.diags_log_fp
        magic := d.magic
        config :=
          { enabled := fun mm =>
              if mm = mode then (if s.isEmpty then d.config.enabled mm else true)
              else d.config.enabled mm
            outputs := d.config.outputs }
        show_location := d.show_location
        cleanup_func := d.cleanup_func
        prefix_str := d.prefix_str
        base_debug_tags := d.base_debug_tags
        base_action_tags := d.base_action_tags
        activated_tags := fun mm =>
          if mm = mode then some m else d.activated_tags mm }

/-- Modelled from the spec: `Diags::deactivate_all` (declared Diags.h
line 227, body in the absent `Diags.cc`): clears the domain's enable
flag and discards its matcher. -/
def Diags.deactivate_all (d : Diags) (mode : DiagsTagType) : Diags :=
  { diags_log_fp := d.diags_log_fp
    magic := d.magic
    config :=
      { enabled := fun mm => if mm = mode then false else d.config.enabled mm
        outputs := d.config.outputs }
    show_location := d.show_location
    cleanup_func := d.cleanup_func
    prefix_str := d.prefix_str
    base_debug_tags := d.base_debug_tags
    base_action_tags := d.base_action_tags
    activated_tags := fun mm => if mm = mode then none else d.activated_tags mm }

/-- A concrete controller state used to instantiate theorems that carry
hypotheses. -/
def d0 : Diags :=
  { diags_log_fp := true
    magic := 0x12345678
    config :=
      { enabled := fun _ => true
        outputs := fun _ =>
          { to_stdout := false, to_stderr := true, to_syslog := false, to_diagslog := true } }
    show_location := false
    cleanup_func := true
    prefix_str := "(test)"
    base_debug_tags := none
    base_action_tags := none
    activated_tags := fun _ => some (fun t => t == "http") }

/-! ## Helper lemmas -/

theorem sinkWrites_all_writes (d : Diags) (dl : DiagsLevel) (r : String) (ok : Sink → Bool) :
    ∀ e ∈ d.sinkWrites dl r ok, ∃ s b rr, e = Event.write s b rr := by
  intro e he
  rcases List.mem_map.mp he with ⟨s, _, rfl⟩
  exact ⟨s, ok s, r, rfl⟩

theorem sinkWrites_count_cleanup (d : Diags) (dl : DiagsLevel) (r : String) (ok : Sink → Bool) :
    (d.sinkWrites dl r ok).count Event.cleanup = 0 := by
  rw [List.count_eq_zero]
  intro h
  rcases List.mem_map.mp h with ⟨s, _, hs⟩
  simp at hs

theorem sinkWrites_count_terminate (d : Diags) (dl : DiagsLevel) (r : String) (ok : Sink → Bool) :
    (d.sinkWrites dl r ok).count Event.terminate = 0 := by
  rw [List.count_eq_zero]
  intro h
  rcases List.mem_map.mp h with ⟨s, _, hs⟩
  simp at hs

/-! ## Claim theorems -/

/-- Claim C1: for every tag string and domain, the per-tag gate
`Diags::on(tag, mode)` returns exactly `config.enabled[mode] &&
tag_activated(tag, mode)`: it is true iff the domain's enable flag is set
and the domain's tag matcher matches the tag. -/
theorem on_tag_gate (d : Diags) (t : String) (mode : DiagsTagType) :
    d.on_tag t mode = (d.config.enabled mode && d.tag_activated t mode)
      ∧ (d.on_tag t mode = true ↔ (d.on mode = true ∧ d.tag_activated t mode = true)) := by
  refine ⟨rfl, ?_⟩
  simp [Diags.on_tag, Diags.on, Bool.and_eq_true]

/-- Claim C2: for every severity level of the nine-level ordering (the
`DL_Undefined` sentinel excluded), `DiagsLevel_IsTerminal` is true iff
the level's ordinal is at least `DL_Fatal`'s, and a non-terminal level
never produces the process-termination signal. -/
theorem isTerminal_iff_ord_ge_fatal (l : DiagsLevel) (h : l ≠ DiagsLevel.DL_Undefined) :
    (DiagsLevel_IsTerminal l = true ↔ DiagsLevel.toNat .DL_Fatal ≤ l.toNat)
      ∧ (DiagsLevel_IsTerminal l = false →
          ∀ (d : Diags) (tag : Option String) (loc : SrcLoc) (msg : String) (ok : Sink → Bool),
            Event.terminate ∉ d.print_va tag l loc msg ok) := by
  constructor
  · cases l
    case DL_Undefined => exact absurd rfl h
    all_goals decide
  · intro hnt d tag loc msg ok
    simp [Diags.print_va, hnt, Diags.sinkWrites, List.mem_map]

/-- Witness for `isTerminal_iff_ord_ge_fatal`, instantiated at the
non-terminal level `DL_Warning`. -/
theorem isTerminal_iff_ord_ge_fatal_witness :
    DiagsLevel.DL_Warning ≠ DiagsLevel.DL_Undefined
      ∧ ((DiagsLevel_IsTerminal DiagsLevel.DL_Warning = true ↔
            DiagsLevel.toNat .DL_Fatal ≤ DiagsLevel.toNat DiagsLevel.DL_Warning)
          ∧ (DiagsLevel_IsTerminal DiagsLevel.DL_Warning = false →
              ∀ (d : Diags) (tag : Option String) (loc : SrcLoc) (msg : String)
                (ok : Sink → Bool),
                Event.terminate ∉ d.print_va tag DiagsLevel.DL_Warning loc msg ok)) :=
  ⟨by decide, isTerminal_iff_ord_ge_fatal DiagsLevel.DL_Warning (by decide)⟩

/-- Claim C10: `DiagsLevel_IsTerminal` is false on the sentinel
`DL_Undefined` although `DL_Undefined`'s ordinal exceeds `DL_Fatal`'s;
the predicate holds exactly on the levels with ordinal in
`[DL_Fatal, DL_Undefined)`, so the array-size sentinel never triggers
process termination. -/
theorem isTerminal_excludes_undefined :
    DiagsLevel_IsTerminal DiagsLevel.DL_Undefined = false
      ∧ DiagsLevel.toNat .DL_Fatal < DiagsLevel.toNat .DL_Undefined
      ∧ ∀ l : DiagsLevel, DiagsLevel_IsTerminal l = true ↔
          (DiagsLevel.toNat .DL_Fatal ≤ l.toNat
            ∧ l.toNat < DiagsLevel.toNat .DL_Undefined) := by
  refine ⟨by decide, by decide, ?_⟩
  intro l
  cases l <;> decide

/-- Claim C7: after `deactivate_all(mode)` the domain's enable flag is
cleared, hence `on(mode)` is false and the per-tag gate `on(t, mode)` is
false for every tag `t`. -/
theorem deactivate_all_disables (d : Diags) (mode : DiagsTagType) (t : String) :
    (d.deactivate_all mode).config.enabled mode = false
      ∧ (d.deactivate_all mode).on mode = false
      ∧ (d.deactivate_all mode).on_tag t mode = false := by
  refine ⟨?_, ?_, ?_⟩ <;> simp [Diags.deactivate_all, Diags.on, Diags.on_tag]

/-- Claim C8: `deactivate_all` is idempotent — a second call with the
same domain leaves the whole controller state (flags, matchers, and
hence every gate result) exactly as after the first. -/
theorem deactivate_all_idempotent (d : Diags) (mode : DiagsTagType) :
    (d.deactivate_all mode).deactivate_all mode = d.deactivate_all mode := by
  unfold Diags.deactivate_all
  congr 1
  · congr 1
    funext mm
    by_cases hm : mm = mode <;> simp [hm]
  · funext mm
    by_cases hm : mm = mode <;> simp [hm]

/-- Claim C3: the two call families.  `log` emits exactly when the
Debug-domain per-tag gate passes (tag-filtered family), and `error`
applies no tag filtering — its record is handed unconditionally to
`print_va`, where only the level's error output routing decides where it
appears. -/
theorem log_error_gating (d : Diags) (t : String) (dl : DiagsLevel) (loc : SrcLoc)
    (msg : String) (ok : Sink → Bool) :
    (d.log t dl loc msg ok =
        if d.config.enabled DiagsTagType.Debug && d.tag_activated t DiagsTagType.Debug then
          d.print_va (some t) dl loc msg ok
        else [])
      ∧ d.error dl loc msg ok = d.print_va none dl loc msg ok := by
  refine ⟨?_, rfl⟩
  rw [Diags.log, Diags.log_va, Diags.on_tag]
  cases hb : (d.config.enabled DiagsTagType.Debug && d.tag_activated t DiagsTagType.Debug) <;>
    simp [hb]

/-- Claim C4: at a terminal severity level the emission is the write
attempts to the routed sinks followed by one cleanup-hook invocation
when a hook is installed and then the termination signal; the cleanup
hook runs exactly once, termination is signalled exactly once, and the
shutdown tail is the same whatever the write success flags `ok` say. -/
theorem print_va_terminal_shutdown (d : Diags) (tag : Option String) (dl : DiagsLevel)
    (loc : SrcLoc) (msg : String) (ok : Sink → Bool)
    (h : DiagsLevel_IsTerminal dl = true) :
    d.print_va tag dl loc msg ok =
        d.sinkWrites dl (renderRecord d tag dl loc msg) ok
          ++ ((if d.cleanup_func then [Event.cleanup] else []) ++ [Event.terminate])
      ∧ (∀ e ∈ d.sinkWrites dl (renderRecord d tag dl loc msg) ok,
          ∃ s b r, e = Event.write s b r)
      ∧ (d.print_va tag dl loc msg ok).count Event.cleanup
          = (if d.cleanup_func then 1 else 0)
      ∧ (d.print_va tag dl loc msg ok).count Event.terminate = 1 := by
  refine ⟨by simp [Diags.print_va, h], sinkWrites_all_writes d dl _ ok, ?_, ?_⟩
  · simp [Diags.print_va, h, List.count_append, sinkWrites_count_cleanup]
    cases d.cleanup_func <;> simp
  · simp [Diags.print_va, h, List.count_append, sinkWrites_count_terminate]
    cases d.cleanup_func <;> simp

/-- Witness for `print_va_terminal_shutdown`: a `DL_Fatal` emission on
the concrete controller `d0`, with every sink write failing — the
shutdown tail still appears. -/
theorem print_va_terminal_shutdown_witness :
    DiagsLevel_IsTerminal DiagsLevel.DL_Fatal = true
      ∧ (d0.print_va none DiagsLevel.DL_Fatal SrcLoc.noArgs "boom" (fun _ => false) =
            d0.sinkWrites DiagsLevel.DL_Fatal
                (renderRecord d0 none DiagsLevel.DL_Fatal SrcLoc.noArgs "boom")
                (fun _ => false)
              ++ ((if d0.cleanup_func then [Event.cleanup] else []) ++ [Event.terminate])
          ∧ (∀ e ∈ d0.sinkWrites DiagsLevel.DL_Fatal
                (renderRecord d0 none DiagsLevel.DL_Fatal SrcLoc.noArgs "boom")
                (fun _ => false),
              ∃ s b r, e = Event.write s b r)
          ∧ (d0.print_va none DiagsLevel.DL_Fatal SrcLoc.noArgs "boom"
                (fun _ => false)).count Event.cleanup
              = (if d0.cleanup_func then 1 else 0)
          ∧ (d0.print_va none DiagsLevel.DL_Fatal SrcLoc.noArgs "boom"
                (fun _ => false)).count Event.terminate = 1) :=
  ⟨by decide,
    print_va_terminal_shutdown d0 none DiagsLevel.DL_Fatal SrcLoc.noArgs "boom"
      (fun _ => false) (by decide)⟩

/-- Claim C9: the no-argument `SrcLoc` constructor yields an invalid
location (no location known); its formatted text is absent (`none`), and
the rendered record for it is exactly the record with the location
segment dropped — no placeholder text. -/
theorem srcloc_noargs_omitted (d : Diags) (tag : Option String) (dl : DiagsLevel)
    (msg : String) :
    SrcLoc.noArgs.valid = false
      ∧ SrcLoc.noArgs.str = none
      ∧ renderRecord d tag dl SrcLoc.noArgs msg =
          String.join
            ([level_name dl, ": ", d.prefix_str]
              ++ (match tag with
                  | some t => [" (", t, ")"]
                  | none => [])
              ++ [" ", msg]) := by
  refine ⟨rfl, rfl, ?_⟩
  simp [renderRecord, SrcLoc.str, SrcLoc.noArgs]

/-- Claim C6 counterexample: `Diags::activate_taglist` is declared
returning `void` (Diags.h line 225), so its return type has no two
distinguishable values — a caller cannot be informed of a parse failure
through a result/status value. -/
theorem activate_taglist_void_no_status :
    ¬ ∃ okRet failRet : ActivateTaglistRet, okRet ≠ failRet :=
  fun ⟨_, _, h⟩ => h rfl

/-- Claim C6 (amended): an invalid tag specification — a null list or
one the pattern matcher cannot compile — leaves the controller state,
matcher and enable flag included, completely unchanged (all-or-nothing
per call); since the function returns `void`, the unchanged state is its
only outcome and no status value reaches the caller. -/
theorem activate_taglist_invalid_preserved (compile : String → Option Matcher)
    (d : Diags) (s : String) (mode : DiagsTagType) (h : compile s = none) :
    d.activate_taglist compile (some s) mode = d
      ∧ d.activate_taglist compile none mode = d := by
  constructor
  · simp [Diags.activate_taglist, h]
  · rfl

/-- Witness for `activate_taglist_invalid_preserved`: a compiler that
rejects the malformed list `"["`, applied to the concrete controller
`d0`. -/
theorem activate_taglist_invalid_preserved_witness :
    (fun _ : String => (none : Option Matcher)) "[" = none
      ∧ (d0.activate_taglist (fun _ => none) (some "[") DiagsTagType.Debug = d0
          ∧ d0.activate_taglist (fun _ => none) none DiagsTagType.Debug = d0) :=
  ⟨rfl,
    activate_taglist_invalid_preserved (fun _ => none) d0 "[" DiagsTagType.Debug rfl⟩
